import Mathlib

/-!
Verification of the embedded-webview facade (`src/embedded_webview/mod.rs`)
against its natural-language specification.

The facade module (`mod.rs`) is embedded directly.  The per-platform backend
adapters (`webview2.rs`, `wkwebview.rs`) are referenced by the facade but are
not part of the sources; wherever a claim depends on backend behaviour, the
backend is modelled from the spec and the corresponding definition's doc
comment says so explicitly.
-/

namespace EmbeddedWebviewSpec

/-- RGBA color, as in `crate::webview::RGBA` (a 4-tuple of `u8`). -/
abbrev RGBA := Nat × Nat × Nat × Nat

/-- A parsed URL (`url::Url`); we only need its textual identity. -/
abbrev Url := String

/-- An HTTP header map (`http::HeaderMap`), as an association list. -/
abbrev HeaderMap := List (String × String)

/-- A filesystem path (`std::path::PathBuf`). -/
abbrev PathBuf := String

/-- Opaque native parent-window handle (`raw_window_handle::RawWindowHandle`). -/
abbrev RawWindowHandle := Nat

/-- Proxy configuration (`crate::webview::ProxyConfig`): HTTP CONNECT or
SOCKSv5 endpoint, per the spec's description of the field. -/
inductive ProxyConfig where
  | http (endpoint : String)
  | socks5 (endpoint : String)
deriving DecidableEq

/-- Page load lifecycle events (`crate::webview::PageLoadEvent`). -/
inductive PageLoadEvent where
  | Started
  | Finished
deriving DecidableEq

/-- A shared browsing-context object (`crate::webview::WebContext`); we track
only its identity. -/
structure WebContext where
  id : Nat
deriving DecidableEq

/-- Modelled from the spec: the Platform Capability Descriptor
(`PlatformSpecificWebViewAttributes`, defined in the per-platform backend
modules which are not among the sources).  The spec gives as example a single
backend-specific toggle (HTTPS-vs-HTTP scheme preference for custom
protocols); unset fields fall back to backend defaults. -/
structure PlatformSpecificWebViewAttributes where
  https_scheme : Bool := false
deriving DecidableEq

instance : Inhabited PlatformSpecificWebViewAttributes := ⟨{}⟩

/-- A custom-protocol request (`http::Request<Vec<u8>>`): method, absolute
URL, header list, body bytes. -/
structure CustomRequest where
  method : String
  url : Url
  headers : HeaderMap
  body : List Nat
deriving DecidableEq

/-- The configuration bag `EmbeddedWebViewAttributes` from
`src/embedded_webview/mod.rs`, field for field.  Handler closures are embedded
as Lean functions of the corresponding shape; what the claims inspect is only
their presence (`Option`/list emptiness). -/
structure EmbeddedWebViewAttributes where
  width : Option Nat
  height : Option Nat
  x : Option Int
  y : Option Int
  user_agent : Option String
  visible : Bool
  transparent : Bool
  background_color : Option RGBA
  url : Option Url
  headers : Option HeaderMap
  zoom_hotkeys_enabled : Bool
  html : Option String
  initialization_scripts : List String
  custom_protocols : List (String × (CustomRequest → Unit))
  ipc_handler : Option (String → Unit)
  navigation_handler : Option (String → Bool)
  download_started_handler : Option (String → PathBuf → Bool × PathBuf)
  download_completed_handler : Option (String → Option PathBuf → Bool → Unit)
  new_window_req_handler : Option (String → Bool)
  clipboard : Bool
  devtools : Bool
  accept_first_mouse : Bool
  back_forward_navigation_gestures : Bool
  incognito : Bool
  autoplay : Bool
  on_page_load_handler : Option (PageLoadEvent → String → Unit)
  proxy_config : Option ProxyConfig
  focused : Bool

/-- `impl Default for EmbeddedWebViewAttributes` (mod.rs lines 200-236).  The
`devtools` default is under `#[cfg(debug_assertions)]`, so the build mode is
an explicit parameter here. -/
def EmbeddedWebViewAttributes.defaultAttrs (debug_assertions : Bool) :
    EmbeddedWebViewAttributes where
  width := none
  height := none
  x := none
  y := none
  user_agent := none
  visible := true
  transparent := false
  background_color := none
  url := none
  headers := none
  html := none
  initialization_scripts := []
  custom_protocols := []
  ipc_handler := none
  navigation_handler := none
  download_started_handler := none
  download_completed_handler := none
  new_window_req_handler := none
  clipboard := false
  devtools := debug_assertions
  zoom_hotkeys_enabled := false
  accept_first_mouse := false
  back_forward_navigation_gestures := false
  incognito := false
  autoplay := true
  on_page_load_handler := none
  proxy_config := none
  focused := true

/-- Errors of `crate::Result` (`wry::Error`): construction and runtime
failures distinguished as the spec's §7 taxonomy requires. -/
inductive WryError where
  | engineUnavailable
  | invalidParentHandle
  | nativeInitRejected (os_code : Nat)
  | runtimeUnsupported
  | nativeCallRejected (msg : String)
deriving DecidableEq

/-- The browsing context a constructed control ends up operating under
(spec §5: shared by explicit opt-in, isolated for incognito, otherwise the
backend's own default context). -/
inductive BrowsingContext where
  | isolated
  | defaultOwn
  | shared (c : WebContext)
deriving DecidableEq

/-- Modelled from the spec (and the field doc on `incognito`, mod.rs lines
172-173: "WebContext will be ingored if incognito is enabled"): the browsing
context the backend actually wires up, given the `incognito` flag and the
optionally supplied shared context.  The native wiring lives in the backend
modules, which are not among the sources. -/
def effectiveBrowsingContext (incognito : Bool) (supplied : Option WebContext) :
    BrowsingContext :=
  if incognito then .isolated
  else
    match supplied with
    | some c => .shared c
    | none => .defaultOwn

/-- The initial content a constructed control loads. -/
inductive InitialContent where
  | fromUrl (u : Url) (headers : Option HeaderMap)
  | fromHtml (s : String)
  | blank
deriving DecidableEq

/-- Modelled from the spec (and the field doc on `html`, mod.rs lines 58-59:
"This will be ignored if the `url` is provided"): which initial content the
backend loads.  The selection itself happens in the backend modules, which are
not among the sources. -/
def effectiveInitialContent (a : EmbeddedWebViewAttributes) : InitialContent :=
  match a.url with
  | some u => .fromUrl u a.headers
  | none =>
    match a.html with
    | some s => .fromHtml s
    | none => .blank

/-- Modelled from the spec: the outcomes the opaque native engine produces for
the runtime operations the facade forwards (spec §4.4: every operation that
can fail at the native layer has a distinguishable failure).  The native calls
live in the backend modules, which are not among the sources. -/
structure NativeOutcomes where
  printOutcome : Except WryError Unit
  setBackgroundColorOutcome : RGBA → Except WryError Unit
  evalOutcome : String → Except WryError Unit
  clearBrowsingDataOutcome : Except WryError Unit

/-- Modelled from the spec: the Backend Adapter (`InnerEmbeddedWebview`,
defined in `webview2.rs` / `wkwebview.rs`, which are not among the sources).
It owns the native handle, the attribute set it was constructed from, the
browsing context it was wired to, and the native operation outcomes. -/
structure InnerEmbeddedWebview where
  parent : RawWindowHandle
  attrs : EmbeddedWebViewAttributes
  context : BrowsingContext
  currentUrl : Url
  native : NativeOutcomes

/-- Modelled from the spec: a reference native constructor
(`InnerEmbeddedWebview::new` in the backend modules, not among the sources).
Construction either fails with a construction error (engine unavailable /
invalid handle / native init rejected) or yields an adapter wired to the
effective browsing context; supplying both incognito and a shared context is
never an error (spec §5). -/
def innerNewModel (outcome : Option WryError) (native : NativeOutcomes)
    (parent : RawWindowHandle) (attrs : EmbeddedWebViewAttributes)
    (_platform_specific : PlatformSpecificWebViewAttributes)
    (web_context : Option WebContext) : Except WryError InnerEmbeddedWebview :=
  match outcome with
  | some e => .error e
  | none =>
    .ok { parent := parent
          attrs := attrs
          context := effectiveBrowsingContext attrs.incognito web_context
          currentUrl := ""
          native := native }

/-- `InnerEmbeddedWebview::set_position` (backend; facade forwards to it). -/
def InnerEmbeddedWebview.set_position (_w : InnerEmbeddedWebview)
    (_x _y : Int) : Unit := ()

/-- `InnerEmbeddedWebview::url` (backend). -/
def InnerEmbeddedWebview.url (w : InnerEmbeddedWebview) : Url := w.currentUrl

/-- `InnerEmbeddedWebview::eval` (backend): runs the script; the optional
callback is what the facade's two evaluate entry points differ in. -/
def InnerEmbeddedWebview.eval (w : InnerEmbeddedWebview) (js : String)
    (_callback : Option (String → Unit)) : Except WryError Unit :=
  w.native.evalOutcome js

/-- Modelled from the spec: `InnerEmbeddedWebview::print` (backend, not among
the sources).  Launching the native print modal is an operation that can fail
at the native layer (spec §4.4 and §7), so its outcome is fallible. -/
def InnerEmbeddedWebview.print (w : InnerEmbeddedWebview) :
    Except WryError Unit :=
  w.native.printOutcome

/-- `InnerEmbeddedWebview::set_background_color` (backend). -/
def InnerEmbeddedWebview.set_background_color (w : InnerEmbeddedWebview)
    (c : RGBA) : Except WryError Unit :=
  w.native.setBackgroundColorOutcome c

/-- `InnerEmbeddedWebview::clear_all_browsing_data` (backend). -/
def InnerEmbeddedWebview.clear_all_browsing_data (w : InnerEmbeddedWebview) :
    Except WryError Unit :=
  w.native.clearBrowsingDataOutcome

/-- `InnerEmbeddedWebview::load_url` (backend). -/
def InnerEmbeddedWebview.load_url (w : InnerEmbeddedWebview) (u : String) :
    InnerEmbeddedWebview :=
  { w with currentUrl := u }

/-- `InnerEmbeddedWebview::load_url_with_headers` (backend). -/
def InnerEmbeddedWebview.load_url_with_headers (w : InnerEmbeddedWebview)
    (u : String) (_headers : HeaderMap) : InnerEmbeddedWebview :=
  { w with currentUrl := u }

/-- `pub struct EmbeddedWebview(InnerEmbeddedWebview)` (mod.rs line 265): the
facade is a newtype over exactly one Backend Adapter. -/
structure EmbeddedWebview where
  inner : InnerEmbeddedWebview

/-- The type of the missing backend constructor the builder delegates to;
`build` is parameterised over it so that the facade code under `src/` is
embedded exactly, independent of the backend model. -/
abbrev InnerNew :=
  RawWindowHandle → EmbeddedWebViewAttributes →
    PlatformSpecificWebViewAttributes → Option WebContext →
    Except WryError InnerEmbeddedWebview

/-- `pub struct EmbeddedWebViewBuilder` (mod.rs lines 238-243). -/
structure EmbeddedWebViewBuilder where
  parent : RawWindowHandle
  attrs : EmbeddedWebViewAttributes
  platform_specific : PlatformSpecificWebViewAttributes
  web_context : Option WebContext

/-- `EmbeddedWebViewBuilder::new` (mod.rs lines 245-252): default attribute
set, default platform-specific attributes, no shared web context.  The build
mode flag feeds the attribute defaults (`#[cfg(debug_assertions)]`). -/
def EmbeddedWebViewBuilder.new (parent : RawWindowHandle)
    (debug_assertions : Bool) : EmbeddedWebViewBuilder where
  parent := parent
  attrs := EmbeddedWebViewAttributes.defaultAttrs debug_assertions
  platform_specific := default
  web_context := none

/-- `EmbeddedWebViewBuilder::build` (mod.rs lines 254-262):
`InnerEmbeddedWebview::new(...).map(EmbeddedWebview)`. -/
def EmbeddedWebViewBuilder.build (b : EmbeddedWebViewBuilder)
    (innerNew : InnerNew) : Except WryError EmbeddedWebview :=
  (innerNew b.parent b.attrs b.platform_specific b.web_context).map
    EmbeddedWebview.mk

/-- `EmbeddedWebview::new` (mod.rs lines 268-270):
`EmbeddedWebViewBuilder::new(parent).build()`. -/
def EmbeddedWebview.new (parent : RawWindowHandle) (debug_assertions : Bool)
    (innerNew : InnerNew) : Except WryError EmbeddedWebview :=
  (EmbeddedWebViewBuilder.new parent debug_assertions).build innerNew

/-- `EmbeddedWebview::set_position` (mod.rs lines 272-274). -/
def EmbeddedWebview.set_position (w : EmbeddedWebview) (x y : Int) : Unit :=
  w.inner.set_position x y

/-- `EmbeddedWebview::url` (mod.rs lines 277-279). -/
def EmbeddedWebview.url (w : EmbeddedWebview) : Url :=
  w.inner.url

/-- `EmbeddedWebview::evaluate_script` (mod.rs lines 286-290):
`self.0.eval(js, None)`. -/
def EmbeddedWebview.evaluate_script (w : EmbeddedWebview) (js : String) :
    Except WryError Unit :=
  w.inner.eval js none

/-- `EmbeddedWebview::evaluate_script_with_callback` (mod.rs lines 302-308):
`self.0.eval(js, Some(callback))`. -/
def EmbeddedWebview.evaluate_script_with_callback (w : EmbeddedWebview)
    (js : String) (callback : String → Unit) : Except WryError Unit :=
  w.inner.eval js (some callback)

/-- `EmbeddedWebview::print` (mod.rs lines 311-314): `self.0.print(); Ok(())`
— the inner outcome is computed and discarded, and the facade returns `Ok`
unconditionally. -/
def EmbeddedWebview.print (w : EmbeddedWebview) : Except WryError Unit :=
  let _discarded := w.inner.print
  Except.ok ()

/-- `EmbeddedWebview::set_background_color` (mod.rs lines 367-369). -/
def EmbeddedWebview.set_background_color (w : EmbeddedWebview) (c : RGBA) :
    Except WryError Unit :=
  w.inner.set_background_color c

/-- `EmbeddedWebview::load_url` (mod.rs lines 372-374). -/
def EmbeddedWebview.load_url (w : EmbeddedWebview) (u : String) :
    InnerEmbeddedWebview :=
  w.inner.load_url u

/-- `EmbeddedWebview::load_url_with_headers` (mod.rs lines 377-379). -/
def EmbeddedWebview.load_url_with_headers (w : EmbeddedWebview) (u : String)
    (headers : HeaderMap) : InnerEmbeddedWebview :=
  w.inner.load_url_with_headers u headers

/-- `EmbeddedWebview::clear_all_browsing_data` (mod.rs lines 382-384). -/
def EmbeddedWebview.clear_all_browsing_data (w : EmbeddedWebview) :
    Except WryError Unit :=
  w.inner.clear_all_browsing_data

/-- Modelled from the spec (§4.3 "Script evaluation with correlation"; the
correlation table lives in the backend modules, which are not among the
sources): the events the adapter's correlation machinery reacts to.
`submit` registers a fresh correlation token for an
`evaluate_script_with_callback` call; `deliver` is the native engine handing
back a JSON-serialized result for a token; `navigate` is the page going away;
`destroy` is control teardown. -/
inductive EvalEvent where
  | submit
  | deliver (token : Nat) (result : String)
  | navigate
  | destroy
deriving DecidableEq

/-- Modelled from the spec: the adapter-local state for script-result
correlation — the next fresh token, the tokens whose host callbacks are still
pending, whether the control is still alive, and the log of callback
invocations actually performed (token paired with the JSON result string it
was invoked with). -/
structure EvalCorrelationState where
  nextToken : Nat
  pending : List Nat
  alive : Bool
  invoked : List (Nat × String)
deriving DecidableEq

/-- Initial correlation state of a freshly built control. -/
def EvalCorrelationState.init : EvalCorrelationState :=
  { nextToken := 0, pending := [], alive := true, invoked := [] }

/-- Modelled from the spec: one step of the correlation machinery.  A result
delivery invokes the pending callback for its token exactly when the control
is alive and the token is still pending, and drops it from the table;
navigation drops all pending callbacks without invoking them; destruction
drops them and marks the control dead, after which nothing is invoked. -/
def evalStep (s : EvalCorrelationState) : EvalEvent → EvalCorrelationState
  | .submit =>
    if s.alive then
      { s with nextToken := s.nextToken + 1, pending := s.nextToken :: s.pending }
    else s
  | .deliver t r =>
    if s.alive && s.pending.contains t then
      { s with pending := s.pending.filter (fun x => x ≠ t),
               invoked := s.invoked ++ [(t, r)] }
    else s
  | .navigate => { s with pending := [] }
  | .destroy => { s with alive := false, pending := [] }

/-- Run the correlation machinery from a given state over a list of events. -/
def evalRunFrom (s : EvalCorrelationState) (es : List EvalEvent) :
    EvalCorrelationState :=
  es.foldl evalStep s

/-- Run the correlation machinery from the initial state. -/
def evalRun (es : List EvalEvent) : EvalCorrelationState :=
  evalRunFrom .init es

/-- Modelled from the spec (§4.3 "IPC receipt"; the native shim lives in the
backend modules, which are not among the sources): within one page lifetime
the page posts string messages and the adapter dispatches queued messages to
the registered IPC handler. -/
inductive IpcEvent where
  | post (msg : String)
  | dispatch
deriving DecidableEq

/-- Modelled from the spec: adapter-local IPC state for one page lifetime —
the queue of messages posted but not yet handed to the handler, and the log of
messages the handler has observed, in observation order. -/
structure IpcState where
  queue : List String
  handlerLog : List String
deriving DecidableEq

/-- Initial IPC state of a fresh page. -/
def IpcState.init : IpcState := { queue := [], handlerLog := [] }

/-- Modelled from the spec: one step of IPC delivery.  A post enqueues the
message; a dispatch hands the oldest queued message to the handler (or does
nothing when the queue is empty). -/
def ipcStep (s : IpcState) : IpcEvent → IpcState
  | .post m => { s with queue := s.queue ++ [m] }
  | .dispatch =>
    match s.queue with
    | [] => s
    | m :: rest => { queue := rest, handlerLog := s.handlerLog ++ [m] }

/-- Run the IPC machinery from a given state over a list of events. -/
def ipcRunFrom (s : IpcState) (es : List IpcEvent) : IpcState :=
  es.foldl ipcStep s

/-- Run the IPC machinery from the initial page state. -/
def ipcRun (es : List IpcEvent) : IpcState :=
  ipcRunFrom .init es

/-- The messages a page posted, in post order, within a list of IPC events. -/
def postsOf : List IpcEvent → List String
  | [] => []
  | .post m :: es => m :: postsOf es
  | .dispatch :: es => postsOf es

/-- A custom-protocol response (spec §6: status code, header list, body
bytes). -/
structure CustomResponse where
  status : Nat
  headers : HeaderMap
  body : List Nat
deriving DecidableEq

/-- Modelled from the spec (§4.3 "Custom protocol interception"; the
responder shim lives in the backend modules, which are not among the
sources): events in the life of one single-use responder — the host invoking
it with a response (possibly repeatedly, possibly from another thread), and
the control being torn down. -/
inductive ResponderEvent where
  | invoke (r : CustomResponse)
  | teardown
deriving DecidableEq

/-- Modelled from the spec: the state of one single-use responder — whether
a completion was already accepted, whether the control has been torn down,
and the log of completions actually delivered to the native engine. -/
structure ResponderState where
  completed : Bool
  tornDown : Bool
  engineCompletions : List CustomResponse
deriving DecidableEq

/-- Initial responder state, handed to the handler with the request. -/
def ResponderState.init : ResponderState :=
  { completed := false, tornDown := false, engineCompletions := [] }

/-- Modelled from the spec: one step of the responder.  The first invocation
while the control lives delivers the completion to the native engine and
marks the responder used; any further invocation, and any invocation after
teardown, is a no-op (never a crash). -/
def responderStep (s : ResponderState) : ResponderEvent → ResponderState
  | .invoke r =>
    if s.tornDown || s.completed then s
    else { s with completed := true,
                  engineCompletions := s.engineCompletions ++ [r] }
  | .teardown => { s with tornDown := true }

/-- Run the responder from a given state over a list of events. -/
def responderRunFrom (s : ResponderState) (es : List ResponderEvent) :
    ResponderState :=
  es.foldl responderStep s

/-- Run the responder from its initial state. -/
def responderRun (es : List ResponderEvent) : ResponderState :=
  responderRunFrom .init es

/-- Adapter invariant for the script-result correlation table: pending tokens
are distinct, every known token is below the fresh counter, no pending token
was already invoked, and no token was invoked twice. -/
def EvalInv (s : EvalCorrelationState) : Prop :=
  s.pending.Nodup ∧
  (∀ t ∈ s.pending, t < s.nextToken) ∧
  (∀ t ∈ s.invoked.map Prod.fst, t < s.nextToken) ∧
  (∀ t ∈ s.pending, t ∉ s.invoked.map Prod.fst) ∧
  (s.invoked.map Prod.fst).Nodup

/-- Responder invariant: the number of completions delivered to the native
engine is 1 once the responder has been used and 0 before. -/
def ResponderInv (s : ResponderState) : Prop :=
  s.engineCompletions.length = (if s.completed then 1 else 0)

/-- A native-outcome record where every operation succeeds. -/
def okNative : NativeOutcomes where
  printOutcome := .ok ()
  setBackgroundColorOutcome := fun _ => .ok ()
  evalOutcome := fun _ => .ok ()
  clearBrowsingDataOutcome := .ok ()

/-- A native-outcome record where every operation fails with
`runtimeUnsupported`. -/
def failingNative : NativeOutcomes where
  printOutcome := .error .runtimeUnsupported
  setBackgroundColorOutcome := fun _ => .error .runtimeUnsupported
  evalOutcome := fun _ => .error .runtimeUnsupported
  clearBrowsingDataOutcome := .error .runtimeUnsupported

/-- A concrete adapter whose native layer fails every fallible operation. -/
def sampleFailingInner : InnerEmbeddedWebview where
  parent := 0
  attrs := EmbeddedWebViewAttributes.defaultAttrs true
  context := .defaultOwn
  currentUrl := ""
  native := failingNative

/-- A concrete builder that sets incognito and also supplies a shared
browsing context. -/
def sampleIncognitoBuilder : EmbeddedWebViewBuilder where
  parent := 3
  attrs := { EmbeddedWebViewAttributes.defaultAttrs true with incognito := true }
  platform_specific := default
  web_context := some ⟨7⟩

/-- A concrete attribute set supplying both a url and inline HTML. -/
def sampleBothContents : EmbeddedWebViewAttributes :=
  { EmbeddedWebViewAttributes.defaultAttrs true with
      url := some "https://example.test/"
      html := some "<p>hi</p>" }

/-! Theorems. -/

/-- C1: the default attribute set has exactly the documented values —
visible, focused, autoplay on; transparent, clipboard, zoom hotkeys,
back/forward gestures, incognito off; devtools tracking the build mode; all
handlers absent, all collections empty, all content fields absent — and a
fully-default builder's `build()` hands exactly those attributes to the
backend, yielding a control with no registered handlers. -/
theorem defaultAttributes_total_spec (debug_assertions : Bool) :
    (EmbeddedWebViewAttributes.defaultAttrs debug_assertions).visible = true ∧
    (EmbeddedWebViewAttributes.defaultAttrs debug_assertions).transparent = false ∧
    (EmbeddedWebViewAttributes.defaultAttrs debug_assertions).clipboard = false ∧
    (EmbeddedWebViewAttributes.defaultAttrs debug_assertions).devtools = debug_assertions ∧
    (EmbeddedWebViewAttributes.defaultAttrs debug_assertions).autoplay = true ∧
    (EmbeddedWebViewAttributes.defaultAttrs debug_assertions).focused = true ∧
    (EmbeddedWebViewAttributes.defaultAttrs debug_assertions).zoom_hotkeys_enabled = false ∧
    (EmbeddedWebViewAttributes.defaultAttrs debug_assertions).back_forward_navigation_gestures = false ∧
    (EmbeddedWebViewAttributes.defaultAttrs debug_assertions).incognito = false ∧
    (EmbeddedWebViewAttributes.defaultAttrs debug_assertions).accept_first_mouse = false ∧
    (EmbeddedWebViewAttributes.defaultAttrs debug_assertions).ipc_handler = none ∧
    (EmbeddedWebViewAttributes.defaultAttrs debug_assertions).navigation_handler = none ∧
    (EmbeddedWebViewAttributes.defaultAttrs debug_assertions).download_started_handler = none ∧
    (EmbeddedWebViewAttributes.defaultAttrs debug_assertions).download_completed_handler = none ∧
    (EmbeddedWebViewAttributes.defaultAttrs debug_assertions).new_window_req_handler = none ∧
    (EmbeddedWebViewAttributes.defaultAttrs debug_assertions).on_page_load_handler = none ∧
    (EmbeddedWebViewAttributes.defaultAttrs debug_assertions).custom_protocols = [] ∧
    (EmbeddedWebViewAttributes.defaultAttrs debug_assertions).initialization_scripts = [] ∧
    (EmbeddedWebViewAttributes.defaultAttrs debug_assertions).url = none ∧
    (EmbeddedWebViewAttributes.defaultAttrs debug_assertions).headers = none ∧
    (EmbeddedWebViewAttributes.defaultAttrs debug_assertions).html = none ∧
    (EmbeddedWebViewAttributes.defaultAttrs debug_assertions).background_color = none ∧
    (EmbeddedWebViewAttributes.defaultAttrs debug_assertions).width = none ∧
    (EmbeddedWebViewAttributes.defaultAttrs debug_assertions).height = none ∧
    (EmbeddedWebViewAttributes.defaultAttrs debug_assertions).x = none ∧
    (EmbeddedWebViewAttributes.defaultAttrs debug_assertions).y = none ∧
    (EmbeddedWebViewAttributes.defaultAttrs debug_assertions).user_agent = none ∧
    (EmbeddedWebViewAttributes.defaultAttrs debug_assertions).proxy_config = none ∧
    ∀ (native : NativeOutcomes) (parent : RawWindowHandle),
      (EmbeddedWebViewBuilder.new parent debug_assertions).build
          (innerNewModel none native) =
        Except.ok (EmbeddedWebview.mk
          { parent := parent
            attrs := EmbeddedWebViewAttributes.defaultAttrs debug_assertions
            context := .defaultOwn
            currentUrl := ""
            native := native }) :=
  ⟨rfl, rfl, rfl, rfl, rfl, rfl, rfl, rfl, rfl, rfl, rfl, rfl, rfl, rfl, rfl,
   rfl, rfl, rfl, rfl, rfl, rfl, rfl, rfl, rfl, rfl, rfl, rfl, rfl,
   fun _ _ => rfl⟩

/-- C5: when both a url and an inline HTML string are supplied, the url takes
precedence and the HTML is ignored; the selection is total, so supplying both
is not an error. -/
theorem url_precedence_over_html (a : EmbeddedWebViewAttributes) (u : Url)
    (s : String) (hu : a.url = some u) (_hs : a.html = some s) :
    effectiveInitialContent a = .fromUrl u a.headers := by
  unfold effectiveInitialContent
  rw [hu]

/-- Witness for C5 at a concrete attribute set carrying both contents. -/
theorem url_precedence_witness :
    sampleBothContents.url = some "https://example.test/" ∧
    sampleBothContents.html = some "<p>hi</p>" ∧
    effectiveInitialContent sampleBothContents =
      .fromUrl "https://example.test/" none :=
  ⟨rfl, rfl, url_precedence_over_html sampleBothContents _ _ rfl rfl⟩

/-- C6: with incognito set, the effective browsing context is isolated no
matter what shared context was supplied, and `build()` still succeeds — the
supplied context is silently ignored, never an error. -/
theorem incognito_ignores_shared_context (b : EmbeddedWebViewBuilder)
    (native : NativeOutcomes) (h : b.attrs.incognito = true) :
    (∀ supplied : Option WebContext,
      effectiveBrowsingContext b.attrs.incognito supplied =
        BrowsingContext.isolated) ∧
    ∃ w : EmbeddedWebview,
      b.build (innerNewModel none native) = Except.ok w ∧
        w.inner.context = BrowsingContext.isolated := by
  constructor
  · intro supplied
    simp [effectiveBrowsingContext, h]
  · refine ⟨_, rfl, ?_⟩
    simp [effectiveBrowsingContext, h]

/-- Witness for C6 at a concrete builder that sets incognito and also
supplies a shared context. -/
theorem incognito_witness :
    sampleIncognitoBuilder.web_context = some ⟨7⟩ ∧
    ∃ w : EmbeddedWebview,
      sampleIncognitoBuilder.build (innerNewModel none okNative) =
        Except.ok w ∧ w.inner.context = BrowsingContext.isolated :=
  ⟨rfl, (incognito_ignores_shared_context sampleIncognitoBuilder okNative rfl).2⟩

/-- C7: `build()` is `InnerEmbeddedWebview::new(...).map(EmbeddedWebview)` —
when native construction fails the same error is returned and no control
value is produced; when it succeeds the control wraps exactly the constructed
adapter. -/
theorem build_propagates_construction_error (innerNew : InnerNew)
    (b : EmbeddedWebViewBuilder) :
    (∀ e, innerNew b.parent b.attrs b.platform_specific b.web_context =
        Except.error e → b.build innerNew = Except.error e) ∧
    (∀ w, innerNew b.parent b.attrs b.platform_specific b.web_context =
        Except.ok w → b.build innerNew = Except.ok (EmbeddedWebview.mk w)) := by
  constructor <;> intro x hx <;>
    simp [EmbeddedWebViewBuilder.build, hx, Except.map]

/-- Witness for C7: a backend constructor that rejects propagates its error
through `build()`, and one that succeeds yields the wrapped adapter. -/
theorem build_propagates_error_witness :
    (EmbeddedWebViewBuilder.new 0 true).build
        (fun _ _ _ _ => Except.error .engineUnavailable) =
      Except.error .engineUnavailable ∧
    (EmbeddedWebViewBuilder.new 0 true).build
        (fun _ _ _ _ => Except.ok sampleFailingInner) =
      Except.ok (EmbeddedWebview.mk sampleFailingInner) :=
  ⟨(build_propagates_construction_error _ _).1 .engineUnavailable rfl,
   (build_propagates_construction_error _ _).2 sampleFailingInner rfl⟩

/-- C9: the facade is a newtype over exactly one Backend Adapter (it equals
the wrapping of its own inner adapter, so it has no other state), and every
operation delegates to the inner adapter. -/
theorem facade_thin_dispatcher :
    (∀ w : EmbeddedWebview, w = EmbeddedWebview.mk w.inner) ∧
    (∀ (w : EmbeddedWebview) (x y : Int),
      w.set_position x y = w.inner.set_position x y) ∧
    (∀ w : EmbeddedWebview, w.url = w.inner.url) ∧
    (∀ (w : EmbeddedWebview) (js : String),
      w.evaluate_script js = w.inner.eval js none) ∧
    (∀ (w : EmbeddedWebview) (js : String) (cb : String → Unit),
      w.evaluate_script_with_callback js cb = w.inner.eval js (some cb)) ∧
    (∀ (w : EmbeddedWebview) (c : RGBA),
      w.set_background_color c = w.inner.set_background_color c) ∧
    (∀ (w : EmbeddedWebview) (u : String),
      w.load_url u = w.inner.load_url u) ∧
    (∀ (w : EmbeddedWebview) (u : String) (hd : HeaderMap),
      w.load_url_with_headers u hd = w.inner.load_url_with_headers u hd) ∧
    (∀ w : EmbeddedWebview,
      w.clear_all_browsing_data = w.inner.clear_all_browsing_data) :=
  ⟨fun _ => rfl, fun _ _ _ => rfl, fun _ => rfl, fun _ _ => rfl,
   fun _ _ _ => rfl, fun _ _ => rfl, fun _ _ => rfl, fun _ _ _ => rfl,
   fun _ => rfl⟩

/-- C10: `EmbeddedWebview::new(parent)` is definitionally
`EmbeddedWebViewBuilder::new(parent).build()`, and the builder path carries
the default attribute set, default platform-specific attributes, and no
shared web context. -/
theorem new_equals_builder_build (parent : RawWindowHandle)
    (debug_assertions : Bool) (innerNew : InnerNew) :
    EmbeddedWebview.new parent debug_assertions innerNew =
      (EmbeddedWebViewBuilder.new parent debug_assertions).build innerNew ∧
    (EmbeddedWebViewBuilder.new parent debug_assertions).attrs =
      EmbeddedWebViewAttributes.defaultAttrs debug_assertions ∧
    (EmbeddedWebViewBuilder.new parent debug_assertions).platform_specific =
      default ∧
    (EmbeddedWebViewBuilder.new parent debug_assertions).web_context = none :=
  ⟨rfl, rfl, rfl, rfl⟩

/-- C4 counterexample: at a control whose native print fails, the facade's
`print` still returns `Ok(())` — the native-layer failure is silently
swallowed (mod.rs lines 311-314 discard the inner outcome), refuting the
claim that every listed fallible operation reports its native failure. -/
theorem facade_print_swallows_failure :
    (EmbeddedWebview.mk sampleFailingInner).inner.print =
      Except.error .runtimeUnsupported ∧
    (EmbeddedWebview.mk sampleFailingInner).print = Except.ok () :=
  ⟨rfl, rfl⟩

/-- C4 amended: `set_background_color`, `evaluate_script`,
`evaluate_script_with_callback` and `clear_all_browsing_data` each return the
native layer's outcome to their caller unchanged (no failure swallowed, and a
failure leaves the control value intact), but `print` discards the native
outcome and unconditionally returns success. -/
theorem fallible_ops_propagation (w : EmbeddedWebview) :
    (∀ c, w.set_background_color c =
      w.inner.native.setBackgroundColorOutcome c) ∧
    (∀ js, w.evaluate_script js = w.inner.native.evalOutcome js) ∧
    (∀ js cb, w.evaluate_script_with_callback js cb =
      w.inner.native.evalOutcome js) ∧
    w.clear_all_browsing_data = w.inner.native.clearBrowsingDataOutcome ∧
    w.print = Except.ok () :=
  ⟨fun _ => rfl, fun _ => rfl, fun _ _ => rfl, rfl, rfl⟩

/-- Running the IPC machinery conserves the posted messages: the handler log
followed by the remaining queue grows exactly by what was posted. -/
theorem ipcRunFrom_conserves (es : List IpcEvent) (s : IpcState) :
    (ipcRunFrom s es).handlerLog ++ (ipcRunFrom s es).queue =
      s.handlerLog ++ s.queue ++ postsOf es := by
  induction es generalizing s with
  | nil => simp [ipcRunFrom, postsOf]
  | cons e es ih =>
    have h : ipcRunFrom s (e :: es) = ipcRunFrom (ipcStep s e) es := rfl
    rw [h, ih]
    cases e with
    | post m => simp [ipcStep, postsOf]
    | dispatch =>
      cases hq : s.queue with
      | nil => simp [ipcStep, hq, postsOf]
      | cons m rest => simp [ipcStep, hq, postsOf]

/-- C3: within one page lifetime, the messages the IPC handler observes are
exactly the posted messages in post order — at any point the handler log plus
the not-yet-dispatched queue reconstructs the post sequence, so the log is
always a prefix of the posts (no merge, no drop, no reorder), and once the
queue is drained the handler has observed every message exactly once in post
order. -/
theorem ipc_delivery_in_post_order (es : List IpcEvent) :
    (ipcRun es).handlerLog ++ (ipcRun es).queue = postsOf es ∧
    (ipcRun es).handlerLog <+: postsOf es ∧
    ((ipcRun es).queue = [] → (ipcRun es).handlerLog = postsOf es) := by
  have h : (ipcRun es).handlerLog ++ (ipcRun es).queue = postsOf es := by
    have h0 := ipcRunFrom_conserves es .init
    simpa [ipcRun, IpcState.init] using h0
  refine ⟨h, ⟨(ipcRun es).queue, h⟩, fun hq => ?_⟩
  rw [hq, List.append_nil] at h
  exact h

/-- Witness for C3 at a concrete fully-dispatched event sequence. -/
theorem ipc_delivery_witness :
    (ipcRun [.post "a", .post "b", .dispatch, .dispatch]).handlerLog =
      postsOf [.post "a", .post "b", .dispatch, .dispatch] :=
  (ipc_delivery_in_post_order _).2.2 rfl

/-- The correlation invariant holds initially. -/
theorem evalInv_init : EvalInv EvalCorrelationState.init := by
  refine ⟨List.nodup_nil, ?_, ?_, ?_, ?_⟩ <;> simp [EvalCorrelationState.init]

/-- Every correlation step preserves the invariant. -/
theorem evalInv_step (s : EvalCorrelationState) (e : EvalEvent)
    (h : EvalInv s) : EvalInv (evalStep s e) := by
  obtain ⟨hnd, hbound, hibound, hdisj, hind⟩ := h
  cases e with
  | submit =>
    by_cases ha : s.alive
    · simp only [evalStep, ha, if_true]
      refine ⟨?_, ?_, ?_, ?_, hind⟩
      · exact List.nodup_cons.mpr ⟨fun hm => lt_irrefl _ (hbound _ hm), hnd⟩
      · intro t ht
        rcases List.mem_cons.mp ht with h1 | h1
        · exact h1 ▸ Nat.lt_succ_self _
        · exact Nat.lt_succ_of_lt (hbound _ h1)
      · intro t ht
        exact Nat.lt_succ_of_lt (hibound _ ht)
      · intro t ht
        rcases List.mem_cons.mp ht with h1 | h1
        · subst h1
          intro hmem
          exact lt_irrefl _ (hibound _ hmem)
        · exact hdisj _ h1
    · simp only [evalStep, ha, if_false]
      exact ⟨hnd, hbound, hibound, hdisj, hind⟩
  | deliver t r =>
    by_cases hc : s.alive && s.pending.contains t
    · simp only [evalStep, hc, if_true]
      have htp : t ∈ s.pending := by
        have h2 := ((Bool.and_eq_true _ _).mp hc).2
        simpa [List.contains, List.elem_iff] using h2
      constructor
      · exact List.Nodup.filter _ hnd
      · refine ⟨?_, ?_, ?_, ?_⟩
        · intro x hx
          exact hbound _ (List.mem_of_mem_filter hx)
        · intro x hx
          simp only [List.map_append, List.map_cons, List.map_nil] at hx
          rcases List.mem_append.mp hx with h1 | h1
          · exact hibound _ h1
          · rcases List.mem_singleton.mp h1 with rfl
            exact hbound _ htp
        · intro x hx
          have hxp : x ∈ s.pending := List.mem_of_mem_filter hx
          have hxt : x ≠ t := by
            have := List.of_mem_filter hx
            simpa using this
          simp only [List.map_append, List.map_cons, List.map_nil]
          intro hmem
          rcases List.mem_append.mp hmem with h1 | h1
          · exact hdisj _ hxp h1
          · exact hxt (List.mem_singleton.mp h1)
        · simp only [List.map_append, List.map_cons, List.map_nil]
          refine List.Nodup.append hind (List.nodup_singleton t) ?_
          intro x hx hx1
          rcases List.mem_singleton.mp hx1 with rfl
          exact hdisj _ htp hx
    · simp only [evalStep, hc, if_false]
      exact ⟨hnd, hbound, hibound, hdisj, hind⟩
  | navigate =>
    refine ⟨List.nodup_nil, ?_, hibound, ?_, hind⟩ <;>
      simp [evalStep]
  | destroy =>
    refine ⟨List.nodup_nil, ?_, hibound, ?_, hind⟩ <;>
      simp [evalStep]

/-- The correlation invariant holds along any run. -/
theorem evalInv_runFrom (es : List EvalEvent) (s : EvalCorrelationState)
    (hs : EvalInv s) : EvalInv (evalRunFrom s es) := by
  induction es generalizing s with
  | nil => exact hs
  | cons e es ih => exact ih _ (evalInv_step s e hs)

/-- Once the control is dead, a step neither invokes a callback nor revives
the control. -/
theorem evalStep_dead (s : EvalCorrelationState) (e : EvalEvent)
    (h : s.alive = false) :
    (evalStep s e).invoked = s.invoked ∧ (evalStep s e).alive = false := by
  cases e <;> simp [evalStep, h]

/-- Once the control is dead, no run from that point invokes any callback. -/
theorem evalRunFrom_dead (es : List EvalEvent) (s : EvalCorrelationState)
    (h : s.alive = false) : (evalRunFrom s es).invoked = s.invoked := by
  induction es generalizing s with
  | nil => rfl
  | cons e es ih =>
    have hd := evalStep_dead s e h
    have h2 : evalRunFrom s (e :: es) = evalRunFrom (evalStep s e) es := rfl
    rw [h2, ih _ hd.2, hd.1]

/-- C2: along any event sequence, each correlation token's callback is
invoked at most once (with the JSON-serialized result string it was delivered
with), and after the control is destroyed no pending callback is ever invoked
— the invocation log never grows again. -/
theorem evalCallback_at_most_once (es : List EvalEvent) :
    ((evalRun es).invoked.map Prod.fst).Nodup ∧
    (∀ es2, (evalRun es).alive = false →
      (evalRunFrom (evalRun es) es2).invoked = (evalRun es).invoked) := by
  constructor
  · exact (evalInv_runFrom es _ evalInv_init).2.2.2.2
  · intro es2 h
    exact evalRunFrom_dead es2 _ h

/-- Witness for C2: a script submitted just before destruction whose native
result arrives after destruction never has its callback invoked. -/
theorem evalCallback_witness :
    (evalRunFrom (evalRun [.submit, .destroy]) [.deliver 0 "\"res\""]).invoked =
      (evalRun [.submit, .destroy]).invoked :=
  (evalCallback_at_most_once [.submit, .destroy]).2 [.deliver 0 "\"res\""] rfl

/-- The responder invariant holds initially. -/
theorem responderInv_init : ResponderInv ResponderState.init := rfl

/-- Every responder step preserves the invariant. -/
theorem responderInv_step (s : ResponderState) (e : ResponderEvent)
    (h : ResponderInv s) : ResponderInv (responderStep s e) := by
  cases e with
  | invoke r =>
    by_cases hc : s.tornDown || s.completed
    · simpa [responderStep, hc] using h
    · have hor : s.tornDown = false ∧ s.completed = false := by
        simpa using hc
      simp only [ResponderInv, hor.2, if_false] at h
      simp [ResponderInv, responderStep, hor.1, hor.2, h]
  | teardown => simpa [ResponderInv, responderStep] using h

/-- The responder invariant holds along any run. -/
theorem responderInv_runFrom (es : List ResponderEvent) (s : ResponderState)
    (hs : ResponderInv s) : ResponderInv (responderRunFrom s es) := by
  induction es generalizing s with
  | nil => exact hs
  | cons e es ih => exact ih _ (responderInv_step s e hs)

/-- C8: along any sequence of responder invocations and teardown, at most one
completion is ever delivered to the native engine; an invocation while the
control lives leaves the engine with exactly one delivered completion whether
or not the responder was already used; and an invocation after teardown is a
strict no-op on the responder state (never a crash). -/
theorem responder_exactly_once_and_teardown_noop (es : List ResponderEvent) :
    (responderRun es).engineCompletions.length ≤ 1 ∧
    (∀ r, (responderRun es).tornDown = false →
      (responderStep (responderRun es) (.invoke r)).engineCompletions.length
        = 1) ∧
    (∀ r, (responderRun es).tornDown = true →
      responderStep (responderRun es) (.invoke r) = responderRun es) := by
  have hinv : ResponderInv (responderRun es) :=
    responderInv_runFrom es _ responderInv_init
  refine ⟨?_, ?_, ?_⟩
  · rw [hinv]
    by_cases hc : (responderRun es).completed <;> simp [hc]
  · intro r hdown
    have hlen : (responderRun es).engineCompletions.length =
        if (responderRun es).completed then 1 else 0 := hinv
    by_cases hc : (responderRun es).completed
    · simp [responderStep, hc, hlen]
    · have hc2 : (responderRun es).completed = false := by
        simpa using hc
      rw [hc2] at hlen
      have h0 : (responderRun es).engineCompletions = [] := by
        simpa using hlen
      simp [responderStep, hdown, hc2, h0]
  · intro r hdown
    simp [responderStep, hdown]

/-- Witness for C8: invoking a live responder delivers one completion; after
teardown an invocation changes nothing. -/
theorem responder_witness :
    (responderStep (responderRun []) (.invoke ⟨200, [], []⟩)).engineCompletions.length = 1 ∧
    responderStep (responderRun [.teardown]) (.invoke ⟨200, [], []⟩) =
      responderRun [.teardown] :=
  ⟨(responder_exactly_once_and_teardown_noop []).2.1 ⟨200, [], []⟩ rfl,
   (responder_exactly_once_and_teardown_noop [.teardown]).2.2 ⟨200, [], []⟩ rfl⟩

end EmbeddedWebviewSpec
